import Mathlib

/-!
Shallow embedding of the realtime-mrs PsychoPy Display Manager
(`psychopy_display_manager.py`) and the flat configuration loader
(`config.py`), together with proofs about the frozen claims.

Modelling conventions:
* Python JSON values (commands, YAML configuration trees) are `JsonVal`.
* Machine floats are idealised as exact rationals `ℚ`; `int(...)` is
  truncation toward zero; `f"{v:.2f}"` is round-half-even formatting.
* Only warning / error / critical log calls are modelled (`LogEntry`);
  info-level logging and stderr status prints are omitted, except that the
  CRITICAL stderr print in `handle_command`'s outer exception handler is
  modelled as a `critical` entry.
* GUI backend effects (window flips, stimulus rendering) are assumed to
  succeed; the blocking task functions `run_m1_experiment` /
  `run_v1_experiment` are external collaborators, modelled by an oracle in
  `DispatchEnv` saying whether the call raises (and with what message).
* Thread-blocking socket calls are modelled by one `NetIterInput` per loop
  iteration of `network_loop`, giving what the blocking call returned.
-/

/-- A JSON value, as produced by `json.loads` on one command line, and also
the YAML tree produced by `yaml.safe_load` in `config.py` (dicts are
association lists with distinct keys). -/
inductive JsonVal where
  | jnull
  | jbool (b : Bool)
  | jnum (q : ℚ)
  | jstr (s : String)
  | jarr (elems : List JsonVal)
  | jobj (fields : List (String × JsonVal))

/-- Python `dict` lookup on an association list (first match). -/
def lookup_field : List (String × JsonVal) → String → Option JsonVal
  | [], _ => none
  | (k, v) :: rest, key => if k = key then some v else lookup_field rest key

/-- Python `dict.get(key, default)`. -/
def dict_get (fields : List (String × JsonVal)) (key : String)
    (default : JsonVal) : JsonVal :=
  (lookup_field fields key).getD default

/-- Python truthiness of a JSON value (used for `wait_for_enter`). -/
def truthy : JsonVal → Bool
  | .jnull => false
  | .jbool b => b
  | .jnum q => q ≠ 0
  | .jstr s => s ≠ ""
  | .jarr elems => ¬elems.isEmpty
  | .jobj fields => ¬fields.isEmpty

/-- Best-effort text rendering of a JSON value used as `show_text` content
(Python would render the object via `str`; the exact rendering of non-string
content is irrelevant to every claim). -/
def json_text : JsonVal → String
  | .jnull => "None"
  | .jbool true => "True"
  | .jbool false => "False"
  | .jnum q => toString q
  | .jstr s => s
  | .jarr _ => "[...]"
  | .jobj _ => "[object]"

/-- Log severities that the model records. -/
inductive LogLevel where
  | warning
  | error
  | critical
  deriving DecidableEq, Repr

/-- One modelled log line: severity and message. -/
abbrev LogEntry : Type := LogLevel × String

/-- A display-update message placed on the E/I update queue by the network
thread: the tuples `("status", text)` and `("circle_size", diameter)` of the
source. -/
inductive EIMsg where
  | status (text : String)
  | circleSize (diameter : ℤ)
  deriving DecidableEq, Repr

/-- The E/I circle stimulus; only its `size` attribute is ever mutated. -/
structure CircleStim where
  size : ℚ × ℚ
  deriving DecidableEq, Repr

/-- The E/I status text stimulus; only its `text` attribute is ever mutated. -/
structure StatusStim where
  text : String
  deriving DecidableEq, Repr

/-- The mutable module-level state of `psychopy_display_manager.py` that the
claims are about: the continue-flag, the command queue, the screen content
(`current_stim`, as the displayed texts) and the E/I task state. -/
structure PDMState where
  winOpen : Bool
  keep_running : Bool
  current_stim : List String
  command_queue : List JsonVal
  ei_display_active : Bool
  ei_msg_queue : List EIMsg
  ei_circle : Option CircleStim
  ei_status : Option StatusStim
  ei_network_thread : Option Unit
  ei_stop_event : Option Bool
  logs : List LogEntry

/-! ## Small string helpers (Python `str.strip` and `str.split`)

Implemented on character lists so that concrete instances reduce in the
kernel.  `py_strip` removes leading/trailing whitespace characters;
`py_split` is Python `s.split(sep)` for a one-character separator. -/

/-- Python `str.strip()` (restricted to ASCII whitespace, which covers every
string these programs exchange). -/
def py_strip (s : String) : String :=
  ⟨((s.toList.dropWhile Char.isWhitespace).reverse.dropWhile
      Char.isWhitespace).reverse⟩

/-- Split a character list on a separator character; `[[]]` for the empty
list, matching Python `"".split(".") == [""]`. -/
def split_on_char (sep : Char) (cs : List Char) : List (List Char) :=
  cs.foldr
    (fun x acc =>
      match acc with
      | g :: gs => if x = sep then [] :: g :: gs else (x :: g) :: gs
      | [] => [[x]])
    [[]]

/-- Python `s.split(sep)` for a single-character separator. -/
def py_split (s : String) (sep : Char) : List String :=
  (split_on_char sep s.toList).map (fun g => ⟨g⟩)

/-! ## Configuration lookup (`config.py`, `get_config`) -/

/-- The key walk of `get_config`: descend through dict nodes; `none` means
the loop hit a missing key or a non-dict node (the code's early
`return default`). -/
def config_walk : JsonVal → List String → Option JsonVal
  | v, [] => some v
  | .jobj fields, k :: ks =>
      match lookup_field fields k with
      | some v => config_walk v ks
      | none => none
  | _, _ :: _ => none

/-- `get_config(path, default)` from `config.py`: split the path on dots and
walk the loaded configuration, returning `default` as soon as a key is
absent or an intermediate node is not a dict. -/
def get_config (cfg : JsonVal) (path : String) (default : JsonVal) : JsonVal :=
  (config_walk cfg (py_split path '.')).getD default

/-! ## Python `float(...)` on a stripped line (idealised to `ℚ`)

`float` accepts an optional sign, a decimal mantissa with at most one dot
and at least one digit, an optional exponent, with underscores allowed only
between digits.  Special values (`inf`, `nan`) are treated as parse
failures here: on such lines the subsequent `int(ei_ratio * 20)` raises
(OverflowError / ValueError) and is caught by the same `except` clause as a
parse failure, so the observable behaviour is identical to the failure
branch. -/

def is_digit_char (c : Char) : Bool := '0' ≤ c ∧ c ≤ '9'

/-- Value of a digit string, most significant first. -/
def digits_to_nat (cs : List Char) : ℕ :=
  cs.foldl (fun n c => 10 * n + (c.toNat - 48)) 0

/-- CPython underscore rule: every underscore must sit between two digits. -/
def underscores_ok_aux : Char → List Char → Bool
  | _, [] => true
  | prev, c :: rest =>
      if c = '_' then
        is_digit_char prev &&
          (match rest with
           | d :: _ => is_digit_char d
           | [] => false) &&
          underscores_ok_aux c rest
      else underscores_ok_aux c rest

def underscores_ok (cs : List Char) : Bool :=
  underscores_ok_aux ' ' cs

/-- Lex a float literal (underscores already removed) into sign, integer
digits, fraction digits, exponent digits value, exponent sign. -/
def parts_clean (cs : List Char) : Option (Bool × List Char × List Char × ℕ × Bool) :=
  let signed : Bool × List Char :=
    match cs with
    | '-' :: t => (true, t)
    | '+' :: t => (false, t)
    | _ => (false, cs)
  let ipSplit := signed.2.span is_digit_char
  let fracSplit : List Char × List Char :=
    match ipSplit.2 with
    | '.' :: t => t.span is_digit_char
    | _ => ([], ipSplit.2)
  if ipSplit.1.isEmpty ∧ fracSplit.1.isEmpty then none
  else
    match fracSplit.2 with
    | [] => some (signed.1, ipSplit.1, fracSplit.1, 0, false)
    | c :: t =>
      if c = 'e' ∨ c = 'E' then
        let esigned : Bool × List Char :=
          match t with
          | '-' :: u => (true, u)
          | '+' :: u => (false, u)
          | _ => (false, t)
        let edSplit := esigned.2.span is_digit_char
        if edSplit.1.isEmpty then none
        else if edSplit.2.isEmpty then
          some (signed.1, ipSplit.1, fracSplit.1, digits_to_nat edSplit.1, esigned.1)
        else none
      else none

/-- Full lexing phase of `float(s)`. -/
def python_float_parts (s : String) :
    Option (Bool × List Char × List Char × ℕ × Bool) :=
  let cs := s.toList
  if underscores_ok cs then parts_clean (cs.filter (fun c => c ≠ '_'))
  else none

/-- Numeric value of a parsed literal: mantissa digits, fraction digits,
decimal exponent. -/
def float_value (neg : Bool) (ip fp : List Char) (ed : ℕ) (eneg : Bool) : ℚ :=
  let base : ℚ := (digits_to_nat ip : ℚ) + (digits_to_nat fp : ℚ) / (10 : ℚ) ^ fp.length
  let m : ℚ := if eneg then base / (10 : ℚ) ^ ed else base * (10 : ℚ) ^ ed
  if neg then -m else m

/-- Python `float(s)` for an already-stripped string, idealised to its exact
rational value. -/
def python_float (s : String) : Option ℚ :=
  match python_float_parts s with
  | some (neg, ip, fp, ed, eneg) => some (float_value neg ip fp ed eneg)
  | none => none

/-- Python `int(...)` on a float: truncation toward zero. -/
def int_py (q : ℚ) : ℤ :=
  if 0 ≤ q then Rat.floor q else Rat.ceil q

/-- Round to the nearest integer, ties to even (IEEE/`format` rounding). -/
def round_half_even (q : ℚ) : ℤ :=
  let f := Rat.floor q
  let frac := q - (f : ℚ)
  if frac < 1 / 2 then f
  else if 1 / 2 < frac then f + 1
  else if f % 2 = 0 then f else f + 1

def two_digit_str (n : ℕ) : String :=
  if n < 10 then "0" ++ toString n else toString n

/-- Python `f"{q:.2f}"`: the value rounded half-even to two decimals. -/
def fmt2 (q : ℚ) : String :=
  let n := round_half_even (q * 100)
  let sign := if n < 0 ∨ (n = 0 ∧ q < 0) then "-" else ""
  let a := n.natAbs
  sign ++ toString (a / 100) ++ "." ++ two_digit_str (a % 100)

/-! ## Network Bridge (`network_loop` inside `_start_ei_display_task`)

The bridge thread's loop performs exactly one blocking socket call per
iteration (an `accept` when no client is connected, a `recv` otherwise).
`NetIterInput` records what that call returned; `network_loop_step` is the
loop body's effect on the bridge-visible state. -/

/-- Bridge-thread state: the listening socket, the optional client
connection, `last_data_time`, the update queue it produces into, and its
log output. -/
structure BridgeState where
  serverOpen : Bool
  clientConnected : Bool
  lastDataTime : ℚ
  msgQueue : List EIMsg
  logs : List LogEntry

/-- Outcome of the single blocking socket call of one loop iteration.
Times are seconds (`time.time()`). -/
inductive NetIterInput where
  | acceptTimeout
  | acceptConn (addr : String) (now : ℚ)
  | recvChunk (data : String) (now : ℚ)
  | recvTimeout (now : ℚ)
  | recvError (emsg : String)

/-- One iteration of the `while not ei_stop_event.is_set()` body
(`psychopy_display_manager.py` lines 434-474).  Inputs that cannot occur
in the current connection state (a `recv` outcome with no client, an
`accept` outcome with a client) leave the state unchanged. -/
def network_loop_step (dataTimeoutSeconds : ℚ) (st : BridgeState)
    (inp : NetIterInput) : BridgeState :=
  if st.clientConnected = false then
    match inp with
    | .acceptTimeout => st
    | .acceptConn addr now =>
        { st with
          clientConnected := true
          lastDataTime := now
          msgQueue := st.msgQueue ++ [.status ("E/I: Client connected from " ++ addr)] }
    | _ => st
  else
    match inp with
    | .recvChunk data now =>
        if data = "" then
          { st with
            clientConnected := false
            msgQueue := st.msgQueue ++ [.status "E/I: Client disconnected. Waiting..."] }
        else
          let st1 := { st with lastDataTime := now }
          match python_float (py_strip data) with
          | some v =>
              { st1 with msgQueue := st1.msgQueue ++
                  [.circleSize (max 10 (int_py (v * 20))),
                   .status ("E/I Ratio: " ++ fmt2 v)] }
          | none =>
              { st1 with logs := st1.logs ++
                  [(LogLevel.warning, "[E/I] Invalid data received: " ++ data)] }
    | .recvTimeout now =>
        if dataTimeoutSeconds < now - st.lastDataTime then
          { st with
            clientConnected := false
            msgQueue := st.msgQueue ++ [.status "E/I: Client timed out. Waiting..."] }
        else st
    | .recvError emsg =>
        { st with
          clientConnected := false
          msgQueue := st.msgQueue ++ [.status "E/I: Network error. Waiting..."]
          logs := st.logs ++ [(LogLevel.error, "[E/I] Network error: " ++ emsg)] }
    | _ => st

/-- The `finally` block of `network_loop`: close the client connection (if
any) and the listening socket. -/
def network_loop_finally (st : BridgeState) : BridgeState :=
  { st with clientConnected := false, serverOpen := false }

/-- Run the bridge loop over a trace of iterations.  Each entry carries the
value of `ei_stop_event.is_set()` observed at the top of the loop together
with the outcome of that iteration's blocking call; the returned number
counts iterations whose body actually executed. -/
def network_loop_run (dataTimeoutSeconds : ℚ) (st : BridgeState) :
    List (Bool × NetIterInput) → BridgeState × ℕ
  | [] => (network_loop_finally st, 0)
  | (stopSet, inp) :: rest =>
      if stopSet then (network_loop_finally st, 0)
      else
        let r := network_loop_run dataTimeoutSeconds
          (network_loop_step dataTimeoutSeconds st inp) rest
        (r.1, r.2 + 1)

/-- `server_socket.settimeout(0.5)`: upper bound on one blocking `accept`. -/
def ei_accept_timeout_s : ℚ := 1 / 2

/-- `client_conn.settimeout(0.1)`: upper bound on one blocking `recv`. -/
def ei_recv_timeout_s : ℚ := 1 / 10

/-- `ei_network_thread.join(timeout=1.0)` in `_stop_ei_display_task`. -/
def ei_join_timeout_s : ℚ := 1

/-- Upper bound on the duration of the blocking call of one iteration,
from the socket timeouts configured in `network_loop`. -/
def iter_max_duration : NetIterInput → ℚ
  | .acceptTimeout => ei_accept_timeout_s
  | .acceptConn _ _ => ei_accept_timeout_s
  | _ => ei_recv_timeout_s

/-! ## Display Session command dispatch (`handle_command`) -/

/-- Oracles for the external collaborators of one dispatch: the loaded
configuration tree, whether the blocking task functions raise (and the
exception message), whether creating the E/I stimuli raises, and whether
the escape key is observed during a streaming frame. -/
structure DispatchEnv where
  cfg : JsonVal
  m1Raises : Option String
  v1Raises : Option String
  stimCreationFails : Bool
  escapePressed : Bool

/-- The literal dict `{"action": "show_text", "content": ..,
"wait_for_enter": False}` requeued by task handlers. -/
def show_text_cmd (content : String) : JsonVal :=
  .jobj [("action", .jstr "show_text"), ("content", .jstr content),
         ("wait_for_enter", .jbool false)]

/-- The literal dict `{"action": "show_standby"}`. -/
def standby_cmd : JsonVal := .jobj [("action", .jstr "show_standby")]

def STANDBY_TEXT : String := "Standby. Please wait for task selection."

def INSTRUCTION_PROMPT : String := "\n\n(Press Enter to continue)"

/-- `clear_screen()`: detach all stimuli. -/
def clear_screen (st : PDMState) : PDMState :=
  { st with current_stim := [] }

/-- `show_message(text, add_prompt)`: clear, then draw one text stimulus. -/
def show_message (st : PDMState) (text : String) (addPrompt : Bool) : PDMState :=
  let st := clear_screen st
  let actual := if addPrompt then text ++ INSTRUCTION_PROMPT else text
  { st with current_stim := [actual] }

/-- `_stop_ei_display_task()`: when active, signal the stop event, join the
thread (bounded by `ei_join_timeout_s`), detach the stimuli, drain the
update queue and clear all E/I fields; otherwise return at once. -/
def stop_ei_display_task (st : PDMState) : PDMState :=
  if st.ei_display_active = false then st
  else
    { st with
      ei_display_active := false
      ei_msg_queue := []
      ei_circle := none
      ei_status := none
      ei_network_thread := none
      ei_stop_event := none }

/-- The `ei_task_config` dict built in the `run_ei_task` branch, with each
value fetched through `get_config` and the hard-coded defaults of the
source. -/
def ei_task_config (cfg : JsonVal) : List (String × JsonVal) :=
  [("network_ip", get_config cfg "network.ip" (.jstr "127.0.0.1")),
   ("network_port", get_config cfg "network.port" (.jnum 5005)),
   ("initial_radius_pix", get_config cfg "ei_task.initial_radius_pix" (.jnum 50)),
   ("circle_fill_color", get_config cfg "ei_task.circle_fill_color" (.jstr "cyan")),
   ("circle_line_color", get_config cfg "ei_task.circle_line_color" (.jstr "white")),
   ("data_timeout_seconds", get_config cfg "ei_task.data_timeout_seconds" (.jnum 10)),
   ("text_color", get_config cfg "ei_task.text_color" (.jstr "white")),
   ("text_height_pix", get_config cfg "ei_task.text_height_pix" (.jnum 20))]

/-- Numeric reading of a configuration value where the source feeds it to
arithmetic or PsychoPy sizes; a non-numeric value would make stimulus
creation raise, which the source catches in `_start_ei_display_task`. -/
def as_num : JsonVal → Option ℚ
  | .jnum q => some q
  | _ => none

/-- `_start_ei_display_task(config)`: guard against a second start, create
the two stimuli, create a fresh update queue and stop event, and launch the
network thread.  A stimulus-creation failure is caught, logged and the
function returns without activating anything (matching lines 409-412). -/
def start_ei_display_task (env : DispatchEnv) (st : PDMState)
    (config : List (String × JsonVal)) : PDMState :=
  if st.ei_display_active then
    { st with logs := st.logs ++
        [(LogLevel.warning, "E/I display already active – start request ignored.")] }
  else
    match as_num (dict_get config "initial_radius_pix" (.jnum 50)), env.stimCreationFails with
    | some r, false =>
        { st with
          ei_circle := some { size := (r * 2, r * 2) },
          ei_status := some { text := "E/I: Waiting for client..." },
          ei_msg_queue := [],
          ei_stop_event := some false,
          ei_network_thread := some (),
          ei_display_active := true }
    | _, _ =>
        { st with logs := st.logs ++
            [(LogLevel.error, "Failed to create E/I display stimuli")] }

/-- Task handled by a blocking dispatch branch. -/
inductive BlockingTask where
  | m1
  | v1

def task_start_text : BlockingTask → String
  | .m1 => "Starting M1 Tapping Task..."
  | .v1 => "Starting V1 Orientation Task..."

def task_complete_text : BlockingTask → String
  | .m1 => "M1 Task Complete."
  | .v1 => "V1 Orientation Task Complete."

def task_err_label : BlockingTask → String
  | .m1 => "Error during M1 task execution: "
  | .v1 => "Error during V1 task execution: "

def task_outcome (env : DispatchEnv) : BlockingTask → Option String
  | .m1 => env.m1Raises
  | .v1 => env.v1Raises

/-- The `run_m1_task` / `run_v1_task` branches: show the start message,
clear, run the blocking task function inside `try`, then requeue either the
completion or the error message followed by `show_standby`. -/
def run_blocking_task (env : DispatchEnv) (st : PDMState)
    (t : BlockingTask) : PDMState :=
  let st := clear_screen (show_message st (task_start_text t) false)
  match task_outcome env t with
  | none =>
      { st with command_queue := st.command_queue ++
          [show_text_cmd (task_complete_text t), standby_cmd] }
  | some emsg =>
      { st with
        command_queue := st.command_queue ++
          [show_text_cmd (task_err_label t ++ emsg), standby_cmd],
        logs := st.logs ++ [(LogLevel.error, task_err_label t ++ emsg)] }

/-- The `run_ei_task` branch: reject a duplicate start, otherwise show the
start message, build the config through `get_config` and start the E/I
display task.  Nothing in the modelled setup block raises, so the inner
`except` of lines 244-249 is never taken. -/
def run_ei_task_branch (env : DispatchEnv) (st : PDMState) : PDMState :=
  if st.ei_display_active then
    { st with logs := st.logs ++
        [(LogLevel.warning, "E/I display already active – ignoring duplicate start command.")] }
  else
    let st := clear_screen st
    let st := show_message st "Starting E/I Ratio Visualization Task..." false
    let st := clear_screen st
    start_ei_display_task env st (ei_task_config env.cfg)

/-- The `stop_ei_task` branch: stop the task, clear the screen, requeue the
stopped message and `show_standby`. -/
def stop_ei_task_branch (st : PDMState) : PDMState :=
  let st := stop_ei_display_task st
  let st := clear_screen st
  { st with command_queue := st.command_queue ++
      [show_text_cmd "E/I Task Stopped.", standby_cmd] }

/-- The `show_text` branch.  The `wait_for_enter` sub-loop is modelled as
eventually observing a return/escape key while flips succeed, after which
the screen is cleared when the session is still running. -/
def show_text_branch (st : PDMState) (fields : List (String × JsonVal)) : PDMState :=
  let text :=
    match lookup_field fields "content" with
    | some (.jstr s) => s
    | some v => json_text v
    | none => "No content provided."
  let waitForEnter := truthy (dict_get fields "wait_for_enter" (.jbool false))
  let st := show_message st text waitForEnter
  if waitForEnter ∧ st.keep_running then clear_screen st else st

/-- The `if action == ...` chain of `handle_command` on a dict command.
A missing or non-string `action`, or an unknown action string, falls
through to the "Unknown command" print and changes nothing. -/
def dispatch_action (env : DispatchEnv) (st : PDMState)
    (fields : List (String × JsonVal)) : PDMState :=
  match lookup_field fields "action" with
  | some (.jstr a) =>
      if a = "show_text" then show_text_branch st fields
      else if a = "show_standby" then show_message st STANDBY_TEXT false
      else if a = "clear_screen" then clear_screen st
      else if a = "exit" then { st with keep_running := false }
      else if a = "run_m1_task" then run_blocking_task env st .m1
      else if a = "run_v1_task" then run_blocking_task env st .v1
      else if a = "run_ei_task" then run_ei_task_branch env st
      else if a = "stop_ei_task" then stop_ei_task_branch st
      else st
  | _ => st

/-- The body of `handle_command` inside its outer `try`.  The only raise
that can reach the outer handler in the model is `command_data.get` on a
non-dict command (an `AttributeError`); it occurs before any state
mutation. -/
def handle_command_body (env : DispatchEnv) (st : PDMState)
    (cmd : JsonVal) : Except String PDMState :=
  match cmd with
  | .jobj fields => .ok (dispatch_action env st fields)
  | _ => .error "AttributeError: command object has no attribute get"

/-- `handle_command(command_data)`: the no-window early return, the
dispatch chain, and the outer `except` which prints a CRITICAL line and
sets `keep_running = False` (lines 261-264). -/
def handle_command (env : DispatchEnv) (st : PDMState) (cmd : JsonVal) : PDMState :=
  if st.winOpen = false then st
  else
    match handle_command_body env st cmd with
    | .ok st1 => st1
    | .error emsg =>
        { st with
          keep_running := false
          logs := st.logs ++ [(LogLevel.critical, "CRITICAL: Error in handle_command: " ++ emsg)] }

/-! ## Display Session main loop (`main_loop`) -/

/-- Apply one dequeued E/I update message to the owned stimuli. -/
def apply_ei_msg (st : PDMState) (m : EIMsg) : PDMState :=
  match m with
  | .status s =>
      match st.ei_status with
      | some stim => { st with ei_status := some { stim with text := s } }
      | none => st
  | .circleSize d =>
      match st.ei_circle with
      | some c => { st with ei_circle := some { c with size := ((d : ℚ), (d : ℚ)) } }
      | none => st

/-- The `while True: ei_msg_queue.get_nowait()` drain: apply every queued
update message, leaving the queue empty. -/
def apply_ei_msgs (st : PDMState) : PDMState :=
  { st.ei_msg_queue.foldl apply_ei_msg st with ei_msg_queue := [] }

/-- The command-processing part of one main-loop iteration: a single
non-blocking `command_queue.get_nowait()` and its dispatch.  Returns the
state after dispatch; `queue.Empty` is a no-op. -/
def main_loop_dispatch_state (env : DispatchEnv) (st : PDMState) : PDMState :=
  match st.command_queue with
  | [] => st
  | c :: rest => handle_command env { st with command_queue := rest } c

/-- The commands dispatched by that same single `get_nowait`. -/
def main_loop_dispatched (st : PDMState) : List JsonVal :=
  match st.command_queue with
  | [] => []
  | c :: _ => [c]

/-- One iteration of the main loop (lines 309-350): one command dequeue and
dispatch, then — when the streaming task is active — a full drain of the
update queue and the escape-key check, then one flip and a short wait. -/
def main_loop_iter (env : DispatchEnv) (st : PDMState) : PDMState :=
  let st1 := main_loop_dispatch_state env st
  if st1.ei_display_active then
    let st2 := apply_ei_msgs st1
    if env.escapePressed then
      let st3 := clear_screen (stop_ei_display_task st2)
      { st3 with command_queue := st3.command_queue ++ [standby_cmd] }
    else st2
  else st1

/-- Run `k` main-loop iterations (stopping when `keep_running` is false),
collecting every dispatched command in order. -/
def main_loop_run (env : DispatchEnv) : ℕ → PDMState → PDMState × List JsonVal
  | 0, st => (st, [])
  | k + 1, st =>
      if st.keep_running then
        let d := main_loop_dispatched st
        let st1 := main_loop_iter env st
        let r := main_loop_run env k st1
        (r.1, d ++ r.2)
      else (st, [])

/-! ## Command Channel reader (`read_commands`) and queue FIFO order -/

/-- One line arriving on stdin, as seen after `json.loads`: a decoded JSON
command, a malformed line (`JSONDecodeError`, logged and skipped), or a
line that is empty after stripping (skipped). -/
inductive ChannelLine where
  | decoded (v : JsonVal)
  | malformed
  | blank

/-- The commands `read_commands` puts on the command queue, in stdin
order. -/
def read_commands : List ChannelLine → List JsonVal
  | [] => []
  | .decoded v :: rest => v :: read_commands rest
  | .malformed :: rest => read_commands rest
  | .blank :: rest => read_commands rest

/-- An event on the shared command queue: a `put` from the reader thread or
one main-loop `get_nowait` attempt. -/
inductive QueueEvent where
  | enqueue (c : JsonVal)
  | dispatchTick

/-- The commands enqueued by a queue-event trace, in order. -/
def enqueued_of : List QueueEvent → List JsonVal
  | [] => []
  | .enqueue c :: rest => c :: enqueued_of rest
  | .dispatchTick :: rest => enqueued_of rest

/-- FIFO queue semantics of `queue.Queue`: `put` appends at the back,
`get_nowait` takes the front (raising `queue.Empty`, a no-op, when empty).
Returns the dispatched commands in dispatch order and the final queue. -/
def run_queue_events : List QueueEvent → List JsonVal → List JsonVal × List JsonVal
  | [], q => ([], q)
  | .enqueue c :: rest, q => run_queue_events rest (q ++ [c])
  | .dispatchTick :: rest, q =>
      match q with
      | [] => run_queue_events rest []
      | c :: q1 =>
          let r := run_queue_events rest q1
          (c :: r.1, r.2)

/-! ## Concrete fixtures used by witnesses and counterexamples -/

/-- External-collaborator oracle where nothing raises and no key is
pressed, with an empty configuration file. -/
def env0 : DispatchEnv :=
  { cfg := .jobj []
    m1Raises := none
    v1Raises := none
    stimCreationFails := false
    escapePressed := false }

/-- The session state right after window setup. -/
def init_state : PDMState :=
  { winOpen := true
    keep_running := true
    current_stim := []
    command_queue := []
    ei_display_active := false
    ei_msg_queue := []
    ei_circle := none
    ei_status := none
    ei_network_thread := none
    ei_stop_event := none
    logs := [] }

/-- A session state with the streaming (E/I) task active. -/
def ex_active_state : PDMState :=
  { init_state with
    ei_display_active := true
    ei_circle := some { size := (100, 100) }
    ei_status := some { text := "E/I: Waiting for client..." }
    ei_network_thread := some ()
    ei_stop_event := some false }

/-- A bridge state with a connected client. -/
def ex_bridge_state : BridgeState :=
  { serverOpen := true
    clientConnected := true
    lastDataTime := 0
    msgQueue := []
    logs := [] }

def run_m1_cmd : JsonVal := .jobj [("action", .jstr "run_m1_task")]

def run_v1_cmd : JsonVal := .jobj [("action", .jstr "run_v1_task")]

def run_ei_cmd : JsonVal := .jobj [("action", .jstr "run_ei_task")]

def stop_ei_cmd : JsonVal := .jobj [("action", .jstr "stop_ei_task")]

/-- A loaded configuration in which `network.port` is absent. -/
def ex_cfg_no_port : JsonVal :=
  .jobj [("network", .jobj [("ip", .jstr "127.0.0.1")])]

/-! ## Claim C9 — absent config keys yield the supplied default -/

/-- C9: for every dot-separated key path that is absent from the loaded
configuration (the key walk of `get_config` fails), `get_config(path,
default)` returns the supplied default exactly; the witness instantiates
this at `network.port` with the documented default `5005` used by the
display manager's call site. -/
theorem get_config_absent_returns_default (cfg : JsonVal) (path : String)
    (default : JsonVal) (h : config_walk cfg (py_split path '.') = none) :
    get_config cfg path default = default := by
  simp [get_config, h]

theorem get_config_absent_returns_default_witness :
    get_config ex_cfg_no_port "network.port" (.jnum 5005) = .jnum 5005 :=
  get_config_absent_returns_default ex_cfg_no_port "network.port" (.jnum 5005) rfl

/-! ## Claim C3 — a second `run_ei_task` while active is a logged no-op -/

/-- C3: when `ei_display_active` is true, handling another `run_ei_task`
command logs a warning and changes nothing else — no new stimuli, no new
queue, no new thread or stop event, no second bind of the TCP port; the
inner guard of `_start_ei_display_task` rejects a duplicate start the same
way. -/
theorem duplicate_ei_start_is_noop (env : DispatchEnv) (st : PDMState)
    (hw : st.winOpen = true) (ha : st.ei_display_active = true) :
    handle_command env st run_ei_cmd =
      { st with logs := st.logs ++
          [(LogLevel.warning, "E/I display already active – ignoring duplicate start command.")] } ∧
    ∀ config, start_ei_display_task env st config =
      { st with logs := st.logs ++
          [(LogLevel.warning, "E/I display already active – start request ignored.")] } := by
  constructor
  · simp [handle_command, hw, handle_command_body, dispatch_action, run_ei_cmd,
      lookup_field, run_ei_task_branch, ha]
  · intro config
    simp [start_ei_display_task, ha]

theorem duplicate_ei_start_is_noop_witness :
    handle_command env0 ex_active_state run_ei_cmd =
      { ex_active_state with logs := ex_active_state.logs ++
          [(LogLevel.warning, "E/I display already active – ignoring duplicate start command.")] } :=
  (duplicate_ei_start_is_noop env0 ex_active_state rfl rfl).1

/-! ## Claim C7 — stopping with no active task is a non-raising no-op -/

/-- C7: when no streaming task is active, `_stop_ei_display_task` returns
the state unchanged (it is a total function in the model, so it cannot
raise), and a `stop_ei_task` command leaves every session/task state field
(`ei_display_active`, `ei_circle`, `ei_status`, `ei_network_thread`,
`ei_stop_event`, `ei_msg_queue`) unchanged. -/
theorem stop_ei_task_when_inactive (st : PDMState)
    (h : st.ei_display_active = false) :
    stop_ei_display_task st = st ∧
    ∀ env : DispatchEnv, st.winOpen = true →
      ((handle_command env st stop_ei_cmd).ei_display_active = st.ei_display_active ∧
       (handle_command env st stop_ei_cmd).ei_circle = st.ei_circle ∧
       (handle_command env st stop_ei_cmd).ei_status = st.ei_status ∧
       (handle_command env st stop_ei_cmd).ei_network_thread = st.ei_network_thread ∧
       (handle_command env st stop_ei_cmd).ei_stop_event = st.ei_stop_event ∧
       (handle_command env st stop_ei_cmd).ei_msg_queue = st.ei_msg_queue) := by
  have hstop : stop_ei_display_task st = st := by
    simp [stop_ei_display_task, h]
  refine ⟨hstop, ?_⟩
  intro env hw
  simp [handle_command, hw, handle_command_body, dispatch_action, stop_ei_cmd,
    lookup_field, stop_ei_task_branch, hstop, clear_screen]

theorem stop_ei_task_when_inactive_witness :
    stop_ei_display_task init_state = init_state ∧
    (handle_command env0 init_state stop_ei_cmd).ei_circle = init_state.ei_circle :=
  ⟨(stop_ei_task_when_inactive init_state rfl).1,
   ((stop_ei_task_when_inactive init_state rfl).2 env0 rfl).2.1⟩

/-! ## Claim C4 — commands are dispatched in the order they were sent -/

/-- FIFO invariant of `queue.Queue`: over any interleaving of `put`s and
`get_nowait`s, the dispatched commands followed by the remaining queue are
exactly the enqueued commands in enqueue order. -/
theorem run_queue_events_fifo (evs : List QueueEvent) (q : List JsonVal) :
    (run_queue_events evs q).1 ++ (run_queue_events evs q).2 =
      q ++ enqueued_of evs := by
  induction evs generalizing q with
  | nil => simp [run_queue_events, enqueued_of]
  | cons e rest ih =>
      cases e with
      | enqueue c => simp [run_queue_events, enqueued_of, ih (q ++ [c])]
      | dispatchTick =>
          cases q with
          | nil => simpa [run_queue_events, enqueued_of] using ih []
          | cons c q1 => simp [run_queue_events, enqueued_of, ih q1]

/-- C4: `read_commands` enqueues the decodable channel lines in stdin
order, and for any interleaving of reader-thread `put`s (in that order)
with main-loop `get_nowait`s, the dispatched sequence followed by the
still-queued sequence equals the sent sequence — dispatch order is send
order; moreover, each main-loop iteration dispatches exactly the front
command of the queue. -/
theorem commands_dispatched_in_fifo_order (lines : List ChannelLine)
    (evs : List QueueEvent) (h : enqueued_of evs = read_commands lines) :
    (run_queue_events evs []).1 ++ (run_queue_events evs []).2 =
      read_commands lines ∧
    ∀ (env : DispatchEnv) (st : PDMState) (c : JsonVal) (rest : List JsonVal),
      st.command_queue = c :: rest →
      main_loop_dispatched st = [c] ∧
      main_loop_dispatch_state env st =
        handle_command env { st with command_queue := rest } c := by
  constructor
  · simpa [h] using run_queue_events_fifo evs []
  · intro env st c rest hq
    constructor
    · simp [main_loop_dispatched, hq]
    · simp [main_loop_dispatch_state, hq]

/-- Channel lines for the FIFO witness: two commands around noise lines. -/
def ex_lines : List ChannelLine :=
  [.decoded (show_text_cmd "A"), .malformed, .blank, .decoded standby_cmd]

/-- An interleaving of the reader's puts with main-loop ticks. -/
def ex_events : List QueueEvent :=
  [.enqueue (show_text_cmd "A"), .dispatchTick, .enqueue standby_cmd,
   .dispatchTick]

theorem commands_dispatched_in_fifo_order_witness :
    (run_queue_events ex_events []).1 ++ (run_queue_events ex_events []).2 =
      read_commands ex_lines ∧
    main_loop_dispatched { init_state with command_queue := [standby_cmd] } =
      [standby_cmd] :=
  ⟨(commands_dispatched_in_fifo_order ex_lines ex_events rfl).1,
   ((commands_dispatched_in_fifo_order ex_lines ex_events rfl).2 env0
      { init_state with command_queue := [standby_cmd] } standby_cmd [] rfl).1⟩

/-! ## Claim C10 — one command dequeue per frame, full update drain -/

theorem apply_ei_msgs_queue (st : PDMState) :
    (apply_ei_msgs st).ei_msg_queue = [] := rfl

theorem stop_ei_display_task_queue_of_empty (st : PDMState)
    (h : st.ei_msg_queue = []) :
    (stop_ei_display_task st).ei_msg_queue = [] := by
  unfold stop_ei_display_task
  split <;> simp [h]

/-- C10: each main-loop iteration dequeues at most one command (so `k`
iterations dispatch at most `k` commands, and `N` pending commands need at
least `N` iterations), while the E/I update queue is drained completely
within the iteration whenever the streaming task is active after command
dispatch. -/
theorem one_command_per_frame (env : DispatchEnv) (st : PDMState) (k : ℕ) :
    (main_loop_dispatched st).length ≤ 1 ∧
    (main_loop_run env k st).2.length ≤ k ∧
    ((main_loop_dispatch_state env st).ei_display_active = true →
      (main_loop_iter env st).ei_msg_queue = []) := by
  refine ⟨?_, ?_, ?_⟩
  · cases hq : st.command_queue <;> simp [main_loop_dispatched, hq]
  · induction k generalizing st with
    | zero => simp [main_loop_run]
    | succ n ih =>
        by_cases hk : st.keep_running = true
        · have hd : (main_loop_dispatched st).length ≤ 1 := by
            cases hq : st.command_queue <;> simp [main_loop_dispatched, hq]
          have hlen : (main_loop_run env (n + 1) st).2.length =
              (main_loop_dispatched st).length +
                (main_loop_run env n (main_loop_iter env st)).2.length := by
            simp [main_loop_run, hk]
          rw [hlen]
          have := ih (main_loop_iter env st)
          omega
        · have hk2 : st.keep_running = false := by
            simpa using hk
          simp [main_loop_run, hk2]
  · intro h
    by_cases he : env.escapePressed = true
    · simp [main_loop_iter, h, he, clear_screen,
        stop_ei_display_task_queue_of_empty, apply_ei_msgs_queue]
    · have he2 : env.escapePressed = false := by simpa using he
      simp [main_loop_iter, h, he2, apply_ei_msgs_queue]

/-- An active streaming state with pending update messages. -/
def ex_loop_state : PDMState :=
  { ex_active_state with ei_msg_queue := [.circleSize 30, .status "x"] }

theorem one_command_per_frame_witness :
    (main_loop_run env0 3 ex_loop_state).2.length ≤ 3 ∧
    (main_loop_iter env0 ex_loop_state).ei_msg_queue = [] :=
  ⟨(one_command_per_frame env0 ex_loop_state 3).2.1,
   (one_command_per_frame env0 ex_loop_state 3).2.2 rfl⟩

/-! ## Claim C6 — data timeout closes the client, keeps the listener -/

/-- C6: when a connected client has been silent for longer than
`data_timeout_seconds`, the next receive timeout closes the client
connection, enqueues a timeout status update, and leaves the listening
socket open so the bridge accepts a new connection; the configuration
default for `ei_task.data_timeout_seconds` is 10 seconds when the key is
absent. -/
theorem data_timeout_closes_client (tmo now : ℚ) (st : BridgeState)
    (hc : st.clientConnected = true) (hs : st.serverOpen = true)
    (ht : tmo < now - st.lastDataTime) :
    (network_loop_step tmo st (.recvTimeout now)).clientConnected = false ∧
    (network_loop_step tmo st (.recvTimeout now)).serverOpen = true ∧
    (network_loop_step tmo st (.recvTimeout now)).msgQueue =
      st.msgQueue ++ [.status "E/I: Client timed out. Waiting..."] ∧
    (∀ (addr : String) (now2 : ℚ),
      (network_loop_step tmo (network_loop_step tmo st (.recvTimeout now))
        (.acceptConn addr now2)).clientConnected = true) ∧
    (∀ cfg : JsonVal,
      config_walk cfg (py_split "ei_task.data_timeout_seconds" '.') = none →
      lookup_field (ei_task_config cfg) "data_timeout_seconds" = some (.jnum 10)) := by
  have hstep : network_loop_step tmo st (.recvTimeout now) =
      { st with
        clientConnected := false
        msgQueue := st.msgQueue ++ [.status "E/I: Client timed out. Waiting..."] } := by
    simp [network_loop_step, hc, ht]
  refine ⟨by simp [hstep], by simp [hstep, hs], by simp [hstep], ?_, ?_⟩
  · intro addr now2
    rw [hstep]
    simp [network_loop_step]
  · intro cfg hAbsent
    simp [ei_task_config, lookup_field, get_config, hAbsent]

theorem data_timeout_closes_client_witness :
    (network_loop_step 10 ex_bridge_state (.recvTimeout 11)).clientConnected = false ∧
    (network_loop_step 10 ex_bridge_state (.recvTimeout 11)).serverOpen = true ∧
    (network_loop_step 10 ex_bridge_state (.recvTimeout 11)).msgQueue =
      ex_bridge_state.msgQueue ++ [.status "E/I: Client timed out. Waiting..."] :=
  ⟨(data_timeout_closes_client 10 11 ex_bridge_state rfl rfl
      (by norm_num [ex_bridge_state])).1,
   (data_timeout_closes_client 10 11 ex_bridge_state rfl rfl
      (by norm_num [ex_bridge_state])).2.1,
   (data_timeout_closes_client 10 11 ex_bridge_state rfl rfl
      (by norm_num [ex_bridge_state])).2.2.1⟩

/-! ## Shared concrete evaluations for the `0.85` scenario -/

theorem float_value_085_eval :
    float_value false ['0'] ['8', '5'] 0 false = 17 / 20 := by
  have hd : digits_to_nat ['8', '5'] = 85 := by decide
  have hz : digits_to_nat ['0'] = 0 := by decide
  simp [float_value, hd, hz]
  norm_num

theorem int_py_seventeen : int_py ((17 / 20 : ℚ) * 20) = 17 := by
  have h : ((17 / 20 : ℚ) * 20) = 17 := by norm_num
  rw [h]
  have hf : Rat.floor (17 : ℚ) = 17 := by decide
  simp [int_py, hf]

theorem fmt2_085 : fmt2 (17 / 20 : ℚ) = "0.85" := by
  have h : ((17 / 20 : ℚ) * 100) = 85 := by norm_num
  have hr : round_half_even (85 : ℚ) = 85 := by
    have hf : Rat.floor (85 : ℚ) = 85 := by decide
    simp [round_half_even, hf]
  simp [fmt2, h, hr, two_digit_str]
  decide

/-! ## Claim C2 — a valid line emits exactly the circle/status pair -/

/-- C2: every received line that (stripped) parses as a float `v` makes the
bridge enqueue exactly two update messages, a `circle_size` update with
value `max(10, int(v * 20))` followed by a status update whose text
contains `v` formatted to two decimals; the witness instantiates the
scenario line `"0.85\n"`, giving circle value `17` and status text
containing `"0.85"`. -/
theorem valid_line_emits_update_pair (tmo now : ℚ) (st : BridgeState)
    (data : String) (v : ℚ) (hc : st.clientConnected = true)
    (hne : data ≠ "") (hp : python_float (py_strip data) = some v) :
    (network_loop_step tmo st (.recvChunk data now)).msgQueue =
      st.msgQueue ++ [.circleSize (max 10 (int_py (v * 20))),
        .status ("E/I Ratio: " ++ fmt2 v)] ∧
    ∃ pre post, "E/I Ratio: " ++ fmt2 v = pre ++ fmt2 v ++ post := by
  constructor
  · simp [network_loop_step, hc, hne, hp]
  · exact ⟨"E/I Ratio: ", "", by simp⟩

theorem valid_line_emits_update_pair_witness :
    (network_loop_step 10 ex_bridge_state (.recvChunk "0.85\n" 1)).msgQueue =
      [EIMsg.circleSize 17, EIMsg.status "E/I Ratio: 0.85"] := by
  have h := (valid_line_emits_update_pair 10 1 ex_bridge_state "0.85\n"
      (float_value false ['0'] ['8', '5'] 0 false) rfl (by decide) rfl).1
  rw [h, float_value_085_eval, int_py_seventeen, fmt2_085]
  decide

/-! ## Claim C5 — malformed lines are discarded, the connection survives -/

/-- C5: a non-empty line that does not parse as a float is logged as a
warning and discarded — the connection stays open, no update message is
enqueued — and a subsequent valid numeric line still produces the
`circle_size` + `status_text` update pair. -/
theorem invalid_line_discarded_connection_kept (tmo now now2 : ℚ)
    (st : BridgeState) (bad good : String) (v : ℚ)
    (hc : st.clientConnected = true)
    (hbne : bad ≠ "") (hbad : python_float (py_strip bad) = none)
    (hgne : good ≠ "") (hgood : python_float (py_strip good) = some v) :
    (network_loop_step tmo st (.recvChunk bad now)).clientConnected = true ∧
    (network_loop_step tmo st (.recvChunk bad now)).msgQueue = st.msgQueue ∧
    (network_loop_step tmo st (.recvChunk bad now)).logs =
      st.logs ++ [(LogLevel.warning, "[E/I] Invalid data received: " ++ bad)] ∧
    (network_loop_step tmo (network_loop_step tmo st (.recvChunk bad now))
        (.recvChunk good now2)).msgQueue =
      st.msgQueue ++ [.circleSize (max 10 (int_py (v * 20))),
        .status ("E/I Ratio: " ++ fmt2 v)] := by
  have h1 : network_loop_step tmo st (.recvChunk bad now) =
      { st with
        lastDataTime := now
        logs := st.logs ++ [(LogLevel.warning, "[E/I] Invalid data received: " ++ bad)] } := by
    simp [network_loop_step, hc, hbne, hbad]
  refine ⟨by simp [h1, hc], by simp [h1], by simp [h1], ?_⟩
  rw [h1]
  simp [network_loop_step, hc, hgne, hgood]

theorem invalid_line_discarded_connection_kept_witness :
    (network_loop_step 10 ex_bridge_state (.recvChunk "oops" 1)).clientConnected = true ∧
    (network_loop_step 10 (network_loop_step 10 ex_bridge_state
        (.recvChunk "oops" 1)) (.recvChunk "0.85" 2)).msgQueue =
      [EIMsg.circleSize 17, EIMsg.status "E/I Ratio: 0.85"] := by
  have h := invalid_line_discarded_connection_kept 10 1 2 ex_bridge_state
    "oops" "0.85" (float_value false ['0'] ['8', '5'] 0 false)
    rfl (by decide) rfl (by decide) rfl
  refine ⟨h.1, ?_⟩
  rw [h.2.2.2, float_value_085_eval, int_py_seventeen, fmt2_085]
  decide

/-! ## Claim C8 — setting the stop event bounds bridge shutdown -/

/-- C8: once the loop observes the stop event set, it executes no further
iterations — the `finally` block runs at once, closing any open client
socket and the listening socket, and the thread returns.  The residual
latency is the blocking call already in flight, bounded by its configured
socket timeout, which is at most `accept timeout + receive timeout`
(0.5s + 0.1s); the stop operation joins the thread with the bounded
timeout `ei_join_timeout_s = 1` second. -/
theorem stop_event_bounds_shutdown (tmo : ℚ) (st : BridgeState)
    (inp : NetIterInput) (rest : List (Bool × NetIterInput)) :
    network_loop_run tmo st ((true, inp) :: rest) =
      (network_loop_finally st, 0) ∧
    (network_loop_finally st).clientConnected = false ∧
    (network_loop_finally st).serverOpen = false ∧
    iter_max_duration inp ≤ ei_accept_timeout_s + ei_recv_timeout_s ∧
    ei_join_timeout_s = 1 := by
  refine ⟨by simp [network_loop_run], rfl, rfl, ?_, rfl⟩
  cases inp <;>
    norm_num [iter_max_duration, ei_accept_timeout_s, ei_recv_timeout_s]

/-! ## Claim C1 — dispatch failure semantics (corrected)

The claim as frozen is false: an exception that reaches `handle_command`'s
outer handler is caught and logged, but the handler sets
`keep_running = False` (line 264) and enqueues no error message and no
return to Standby, so one bad command terminates the session.  The reader
thread enqueues any JSON value (`json.loads` output) without checking it
is an object, and `command_data.get("action")` on a non-dict raises
`AttributeError`, so the JSON line `42` is such a command.  What does hold:
exceptions raised inside the task functions are caught by the per-task
handlers, logged, surfaced as an on-screen error command followed by
Standby, and `keep_running` stays true. -/

/-- C1 counterexample: dispatching the JSON command `42` (a line the reader
thread happily enqueues) leaves the session with `keep_running = false`,
with no error message shown and no standby command enqueued — refuting
"the session never terminates because of a single bad command". -/
theorem dispatch_error_kills_session_counterexample :
    (handle_command env0 init_state (.jnum 42)).keep_running = false ∧
    (handle_command env0 init_state (.jnum 42)).command_queue = [] ∧
    (handle_command env0 init_state (.jnum 42)).current_stim = [] :=
  ⟨rfl, rfl, rfl⟩

/-- C1 (amended): an exception raised inside a task function (M1 or V1)
during dispatch is caught and logged, converted into an on-screen error
message command followed by a return to Standby, and `keep_running` stays
true; but an exception that reaches the dispatch wrapper's outer handler
(such as dispatching a non-object JSON command) is caught and logged and
sets `keep_running` to false, terminating the main loop. -/
theorem task_errors_contained_dispatch_errors_fatal (env : DispatchEnv)
    (st : PDMState) (emsg : String) (hw : st.winOpen = true)
    (hk : st.keep_running = true) :
    (env.m1Raises = some emsg →
      (handle_command env st run_m1_cmd).keep_running = true ∧
      (handle_command env st run_m1_cmd).command_queue =
        st.command_queue ++
          [show_text_cmd ("Error during M1 task execution: " ++ emsg), standby_cmd] ∧
      (handle_command env st run_m1_cmd).logs =
        st.logs ++ [(LogLevel.error, "Error during M1 task execution: " ++ emsg)]) ∧
    (env.v1Raises = some emsg →
      (handle_command env st run_v1_cmd).keep_running = true ∧
      (handle_command env st run_v1_cmd).command_queue =
        st.command_queue ++
          [show_text_cmd ("Error during V1 task execution: " ++ emsg), standby_cmd] ∧
      (handle_command env st run_v1_cmd).logs =
        st.logs ++ [(LogLevel.error, "Error during V1 task execution: " ++ emsg)]) ∧
    ((handle_command env st (.jnum 42)).keep_running = false ∧
     (handle_command env st (.jnum 42)).command_queue = st.command_queue ∧
     (handle_command env st (.jnum 42)).logs = st.logs ++
       [(LogLevel.critical,
         "CRITICAL: Error in handle_command: AttributeError: command object has no attribute get")]) := by
  refine ⟨?_, ?_, ?_⟩
  · intro hm
    refine ⟨?_, ?_, ?_⟩ <;>
      simp [handle_command, hw, handle_command_body, dispatch_action,
        run_m1_cmd, lookup_field, run_blocking_task, task_outcome, hm,
        task_err_label, show_message, clear_screen, hk]
  · intro hv
    refine ⟨?_, ?_, ?_⟩ <;>
      simp [handle_command, hw, handle_command_body, dispatch_action,
        run_v1_cmd, lookup_field, run_blocking_task, task_outcome, hv,
        task_err_label, show_message, clear_screen, hk]
  · refine ⟨?_, ?_, ?_⟩ <;>
      simp [handle_command, hw, handle_command_body]

/-- External-collaborator oracle in which `run_m1_experiment` raises. -/
def env_m1_boom : DispatchEnv := { env0 with m1Raises := some "boom" }

theorem task_errors_contained_dispatch_errors_fatal_witness :
    (handle_command env_m1_boom init_state run_m1_cmd).keep_running = true ∧
    (handle_command env_m1_boom init_state run_m1_cmd).command_queue =
      [show_text_cmd "Error during M1 task execution: boom", standby_cmd] := by
  have h := (task_errors_contained_dispatch_errors_fatal env_m1_boom
    init_state "boom" rfl rfl).1 rfl
  refine ⟨h.1, ?_⟩
  rw [h.2.1]
  rfl
